import Mathlib

/-!
Shallow embedding of `src/source/IOKit.py`: Python bindings for the IOKit
device-registry notification service.

The repository code is a thin stateful layer over four external collaborators
(the registry/enumeration service, the property-lookup facility, the
notification channel, and the run loop).  Each collaborator is modelled by an
explicit parameter or by the data it owns, following the interface the source
calls into:

* an OS iteration cursor is modelled by the list of device handles it still
  has to produce (`IOIteratorNext` pops the head and signals exhaustion with
  the null handle `0`, exactly as the ctypes wrapper observes it);
* the property-lookup primitive is a parameter of type `SearchFn`;
* the registry's `IOServiceAddMatchingNotification` entry point is a parameter
  of type `Svc` giving, for the i-th subscription request of a registration
  call, the returned status code and the cursor handle written through the
  out-parameter;
* a Python receiver object is modelled by its attribute dictionary `Attrs`,
  with Python `getattr`/`setattr`/truthiness semantics made explicit.

The source's error path is embedded as it actually executes, not as it was
evidently intended: `raise IOException(ret)` first evaluates the expression
`IOException(ret)`, but `IOException` is defined nowhere in the module (the
imports are `CoreFoundation`'s CF symbols, `ctypes`, and
`pyobjc_id`/`objc_object` from `objc`, none of which provides it, and it is
no Python builtin), so the name lookup itself raises
`NameError: name 'IOException' is not defined`.  The caller therefore
receives a NameError carrying only the undefined name — the status code is
lost.  The embedding models this as `Except.error (PyError.nameError
"IOException")`.
-/

namespace IOKit

/-! ### Constants from the source -/

def kIOPublishNotification : String := "IOServicePublish"

def kIOFirstPublishNotification : String := "IOServiceFirstPublish"

def kIOMatchedNotification : String := "IOServiceMatched"

def kIOFirstMatchNotification : String := "IOServiceFirstMatch"

def kIOTerminatedNotification : String := "IOServiceTerminate"

def kIOServicePlane : String := "IOService"

def kIOCalloutDeviceKey : String := "IOCalloutDevice"

def kIORegistryIterateRecursively : Nat := 1

def kIORegistryIterateParents : Nat := 2

/-- The default CoreFoundation allocator, an opaque handle. -/
def kCFAllocatorDefault : Nat := 0

/-- The suffix the source appends to the notification-type name when it
stores the ctypes wrapper on the receiver (`setattr(receiver, k + '_ctype', wrap)`). -/
def ctypeSuffix : String := "_ctype"

/-! ### Python values and attribute dictionaries -/

/-- A Python value as far as the source observes one: the source only asks
whether an attribute is truthy (`if not attr: continue`) and passes it around
as an opaque reference.  `callable id` stands for a bound method / function
object (identified by `id`); the other constructors are non-callable values a
receiver attribute could hold. -/
inductive PyVal where
  | callable (id : Nat)
  | intVal (n : Nat)
  | strVal (s : String)
  | noneVal
deriving DecidableEq, Repr

/-- Python truthiness: `None`, `0` and `""` are falsy; functions and bound
methods are truthy. -/
def PyVal.truthy : PyVal → Bool
  | .callable _ => true
  | .intVal n => n != 0
  | .strVal s => s != ""
  | .noneVal => false

/-- Whether a Python value is callable. -/
def PyVal.isCallable : PyVal → Bool
  | .callable _ => true
  | .intVal _ => false
  | .strVal _ => false
  | .noneVal => false

/-- A Python object's attribute dictionary: attribute name to value, unique keys. -/
abbrev Attrs := List (String × PyVal)

/-- Python `getattr(obj, name)` restricted to the attribute dictionary:
first (unique) binding of `name`, if any. -/
def getattr : Attrs → String → Option PyVal
  | [], _ => none
  | (k, w) :: rest, name => if k = name then some w else getattr rest name

/-- Python `setattr(obj, name, v)`: replace the binding of `name` in place,
or append a fresh binding. -/
def setattr : Attrs → String → PyVal → Attrs
  | [], name, v => [(name, v)]
  | (k, w) :: rest, name, v =>
    if k = name then (name, v) :: rest else (k, w) :: setattr rest name v

theorem getattr_setattr_self (attrs : Attrs) (name : String) (v : PyVal) :
    getattr (setattr attrs name v) name = some v := by
  induction attrs with
  | nil => simp [setattr, getattr]
  | cons hd tl ih =>
    obtain ⟨k, w⟩ := hd
    by_cases h : k = name
    · simp [setattr, getattr, h]
    · simp [setattr, getattr, h, ih]

theorem getattr_setattr_ne (attrs : Attrs) (key name : String) (v : PyVal)
    (h : name ≠ key) : getattr (setattr attrs key v) name = getattr attrs name := by
  induction attrs with
  | nil =>
    simp only [setattr, getattr]
    rw [if_neg (fun hk => h hk.symm)]
  | cons hd tl ih =>
    obtain ⟨k, w⟩ := hd
    by_cases hk : k = key
    · subst hk
      simp only [setattr, if_pos rfl, getattr]
      rw [if_neg (fun hk => h hk.symm), if_neg (fun hk => h hk.symm)]
    · simp only [setattr, if_neg hk, getattr]
      by_cases hn : k = name
      · simp [hn]
      · simp [hn, ih]

/-! ### The external enumeration cursor and `IOIterator` -/

/-- The registry's `IOIteratorNext` on an iteration cursor, the cursor being
modelled by the list of device handles it still has to produce.  Returns the
next handle and the advanced cursor; the null handle `0` signals exhaustion. -/
def IOIteratorNext : List Nat → Nat × List Nat
  | [] => (0, [])
  | h :: t => (h, t)

/-- `IOIterator.next` from the source: calls `IOIteratorNext` and raises
`StopIteration` (here: `none`) when the returned handle is falsy. -/
def IOIterator.next (cursor : List Nat) : Option Nat × List Nat :=
  let r := IOIteratorNext cursor
  if r.1 = 0 then (none, r.2) else (some r.1, r.2)

/-- The sequence of handles a Python `for service in IOIterator(it)` loop
receives: repeated `next()` until the first `StopIteration`. -/
def IOIterator.toList : List Nat → List Nat
  | [] => []
  | h :: t => if h = 0 then [] else h :: IOIterator.toList t

/-- The results of `n` successive `IOIterator.next` calls, in order. -/
def nextCalls : Nat → List Nat → List (Option Nat)
  | 0, _ => []
  | Nat.succ n, cursor =>
    let r := IOIterator.next cursor
    r.1 :: nextCalls n r.2

theorem nextCalls_nil (m : Nat) : nextCalls m [] = List.replicate m none := by
  induction m with
  | zero => rfl
  | succ n ih => simp [nextCalls, IOIterator.next, IOIteratorNext, ih, List.replicate]

theorem IOIterator.toList_of_no_zero (cursor : List Nat)
    (hz : ∀ x ∈ cursor, x ≠ 0) : IOIterator.toList cursor = cursor := by
  induction cursor with
  | nil => rfl
  | cons h t ih =>
    have hh : h ≠ 0 := hz h (List.mem_cons_self h t)
    simp only [IOIterator.toList, if_neg hh]
    rw [ih (fun x hx => hz x (List.mem_cons_of_mem h hx))]

/-! ### Property lookup and the path generator -/

/-- The external `IORegistryEntrySearchCFProperty` C primitive:
entry, plane, key, allocator, options ↦ the property value, or `none`
when the property is absent (a NULL CFTypeRef, which `objc_object` maps to
Python `None`). -/
abbrev SearchFn := Nat → String → String → Nat → Nat → Option String

/-- The source's `IORegistryEntrySearchCFProperty` wrapper.  In the Python
source `allocator` defaults to `kCFAllocatorDefault` and `options` to
`kIORegistryIterateRecursively`; whatever the caller passes, the body hands
the literals `kCFAllocatorDefault` and `kIORegistryIterateRecursively` to the
C primitive, ignoring both parameters. -/
def IORegistryEntrySearchCFProperty (search : SearchFn) (entry : Nat)
    (plane key : String) (allocator options : Nat) : Option String :=
  search entry plane key kCFAllocatorDefault kIORegistryIterateRecursively

/-- The generator built by `_path_callback`:
`(IORegistryEntrySearchCFProperty(service, kIOServicePlane, kIOCalloutDeviceKey)
for service in IOIterator(iterator))` — one lookup result per service the
underlying iterator yields. -/
def pathGenerator (search : SearchFn) (cursor : List Nat) : List (Option String) :=
  (IOIterator.toList cursor).map
    (fun service => IORegistryEntrySearchCFProperty search service kIOServicePlane
      kIOCalloutDeviceKey kCFAllocatorDefault kIORegistryIterateRecursively)

/-- Modelled from the spec's words (§4.3), for comparison with `pathGenerator`:
a PathIterator that yields only the successfully resolved paths, silently
skipping every handle whose resolution fails. -/
def pathIteratorSpec (search : SearchFn) (cursor : List Nat) : List String :=
  (IOIterator.toList cursor).filterMap
    (fun service => IORegistryEntrySearchCFProperty search service kIOServicePlane
      kIOCalloutDeviceKey kCFAllocatorDefault kIORegistryIterateRecursively)

/-! ### The notification port and its run-loop source -/

/-- A run-loop source as the source returns it: a `CFRunLoopSourceRef`
wrapping the raw pointer obtained from the OS. -/
structure CFRunLoopSourceRef where
  ptr : Nat
deriving DecidableEq, Repr

/-- An `IONotificationPort`: owns the opaque notification-channel handle
obtained from `IONotificationPortCreate`. -/
structure IONotificationPort where
  _obj : Nat
deriving DecidableEq, Repr

/-- The source's `getRunLoopSource` method: asks the OS
(`IONotificationPortGetRunLoopSource`, modelled by `getSource`) for the
channel's run-loop source pointer and wraps it in a fresh
`CFRunLoopSourceRef`.  The port is returned unchanged: the method mutates
nothing. -/
def getRunLoopSource (getSource : Nat → Nat) (port : IONotificationPort) :
    CFRunLoopSourceRef × IONotificationPort :=
  (⟨getSource port._obj⟩, port)

/-! ### Registration: `addMatchingNotifications` -/

/-- Which demultiplexing callback an entry of the source's `map` table wires
up: `_notification` (raw `IOIterator` delivery) or `_path_notification`
(path-generator delivery). -/
inductive Flavor where
  | raw
  | path
deriving DecidableEq, Repr

/-- The source's `map` table: notification-type name, handler attribute name,
and which of the two demultiplexing callbacks is registered, in source order. -/
def notificationMap : List (String × String × Flavor) :=
  [ (kIOPublishNotification,        "on_publish",            Flavor.raw),
    (kIOFirstPublishNotification,   "on_first_publish",      Flavor.raw),
    (kIOMatchedNotification,        "on_match",              Flavor.raw),
    (kIOFirstMatchNotification,     "on_first_match",        Flavor.raw),
    (kIOTerminatedNotification,     "on_terminate",          Flavor.raw),
    (kIOPublishNotification,        "on_path_publish",       Flavor.path),
    (kIOFirstPublishNotification,   "on_path_first_publish", Flavor.path),
    (kIOMatchedNotification,        "on_path_match",         Flavor.path),
    (kIOFirstMatchNotification,     "on_path_first_match",   Flavor.path),
    (kIOTerminatedNotification,     "on_path_terminate",     Flavor.path) ]

/-- The ten recognized handler attribute names, in table order. -/
def recognizedNames : List String := notificationMap.map (fun e => e.2.1)

/-- A handler binding established during one registration call: notification
type, handler attribute name, callback flavor, and the handler value the
`py_object` wrapper retains. -/
structure Binding where
  kind : String
  name : String
  flavor : Flavor
  handler : PyVal
deriving DecidableEq, Repr

/-- The argument a demultiplexing callback hands to the handler: `_callback`
wraps the cursor in an `IOIterator`, `_path_callback` wraps it further into
the path generator. -/
inductive HandlerArg where
  | rawIter (cursor : Nat)
  | pathGen (cursor : Nat)
deriving DecidableEq, Repr

/-- Dispatch through `_callback` / `_path_callback`: the argument built from
the iteration-cursor handle for the given callback flavor. -/
def invokeArg : Flavor → Nat → HandlerArg
  | Flavor.raw, it => HandlerArg.rawIter it
  | Flavor.path, it => HandlerArg.pathGen it

/-- An observable action of a registration call, in program order: a
successful OS subscription (`IOServiceAddMatchingNotification` returning 0),
or a synchronous handler invocation `n(wrap, it)`. -/
inductive Event where
  | subscribed (b : Binding) (cursor : Nat)
  | invoked (handler : PyVal) (arg : HandlerArg)
deriving DecidableEq, Repr

/-- The state a registration call threads: the receiver's attribute
dictionary (mutated by the keep-reference `setattr`), the active OS-side
subscriptions, the `iterators` result dictionary, the trace of observable
actions, and the number of OS subscription requests issued so far. -/
structure RegState where
  attrs : Attrs
  subs : List (Binding × Nat)
  iterators : List (String × Nat)
  trace : List Event
  calls : Nat
deriving DecidableEq, Repr

/-- The registry service's responses during one registration call: for the
i-th `IOServiceAddMatchingNotification` request, the returned status code and
the cursor handle written through the out-parameter. -/
abbrev Svc := Nat → Int × Nat

/-- The exception a registration call can raise.  The source's only raise
site is `raise IOException(ret)`; since `IOException` is undefined in the
module, what that line actually raises is
`NameError: name 'IOException' is not defined`, carrying the undefined name
and nothing else — in particular not the status code `ret`. -/
inductive PyError where
  | nameError (name : String)
deriving DecidableEq, Repr

deriving instance DecidableEq for Except

/-- The `for k, v, n in map:` loop of `addMatchingNotifications`, one table
entry at a time:

* `attr = getattr(receiver, v, None); if not attr: continue` — skip unless
  the attribute is truthy;
* `wrap = py_object(attr); setattr(receiver, k + '_ctype', wrap)` — store the
  wrapper on the receiver under the notification-type name;
* `ret = IOServiceAddMatchingNotification(...); if ret: raise IOException(ret)`
  — the i-th service response; a non-zero status aborts the call, but since
  `IOException` is undefined in the module the raise site itself raises
  `NameError: name 'IOException' is not defined`, so the abort carries the
  undefined name and not the status code;
* `n(wrap, it)` — synchronously invoke the demultiplexing callback on the
  fresh cursor;
* `iterators[v] = it` — record the cursor under the handler name. -/
def regLoop (svc : Svc) : List (String × String × Flavor) → RegState →
    RegState × Except PyError (List (String × Nat))
  | [], st => (st, Except.ok st.iterators)
  | (k, v, n) :: rest, st =>
    if ((getattr st.attrs v).getD PyVal.noneVal).truthy then
      if (svc st.calls).1 = 0 then
        regLoop svc rest
          { attrs := setattr st.attrs (k ++ ctypeSuffix) ((getattr st.attrs v).getD PyVal.noneVal),
            subs := st.subs ++ [(⟨k, v, n, (getattr st.attrs v).getD PyVal.noneVal⟩, (svc st.calls).2)],
            iterators := st.iterators ++ [(v, (svc st.calls).2)],
            trace := st.trace ++
              [Event.subscribed ⟨k, v, n, (getattr st.attrs v).getD PyVal.noneVal⟩ (svc st.calls).2,
               Event.invoked ((getattr st.attrs v).getD PyVal.noneVal)
                 (invokeArg n (svc st.calls).2)],
            calls := st.calls + 1 }
      else
        ({ st with
            attrs := setattr st.attrs (k ++ ctypeSuffix) ((getattr st.attrs v).getD PyVal.noneVal),
            calls := st.calls + 1 },
         Except.error (PyError.nameError ("IOException")))
    else
      regLoop svc rest st

/-- `IONotificationPort.addMatchingNotifications(matching, receiver)`: run the
table loop from the empty result dictionary.  The receiver is given by its
attribute dictionary; the final `RegState` is returned alongside the Python
outcome (the `iterators` dictionary, or the raised error's status code). -/
def addMatchingNotifications (svc : Svc) (receiver : Attrs) :
    RegState × Except PyError (List (String × Nat)) :=
  regLoop svc notificationMap
    { attrs := receiver, subs := [], iterators := [], trace := [], calls := 0 }

/-- The table entries whose handler attribute is truthy on the given
attribute dictionary, with the attribute value they bind. -/
def boundBindings (attrs : Attrs) : List (String × String × Flavor) → List Binding
  | [] => []
  | (k, v, n) :: rest =>
    if ((getattr attrs v).getD PyVal.noneVal).truthy then
      ⟨k, v, n, (getattr attrs v).getD PyVal.noneVal⟩ :: boundBindings attrs rest
    else
      boundBindings attrs rest

/-- The recognized handler names at which the receiver exposes a callable
member — the handler set H of the spec. -/
def exposedHandlers (attrs : Attrs) : List String :=
  recognizedNames.filter (fun v => ((getattr attrs v).getD PyVal.noneVal).isCallable)

/-- The subscriptions a run over the given bindings establishes, the i-th
binding receiving the cursor of the (c+i)-th service response. -/
def buildSubs (svc : Svc) (c : Nat) : List Binding → List (Binding × Nat)
  | [] => []
  | b :: rest => (b, (svc c).2) :: buildSubs svc (c + 1) rest

/-- The `iterators` dictionary a run over the given bindings returns. -/
def buildIters (svc : Svc) (c : Nat) : List Binding → List (String × Nat)
  | [] => []
  | b :: rest => (b.name, (svc c).2) :: buildIters svc (c + 1) rest

/-- The trace a run over the given bindings produces: each subscription is
immediately followed by the synchronous invocation of its handler on the
argument built from its own cursor. -/
def buildTrace (svc : Svc) (c : Nat) : List Binding → List Event
  | [] => []
  | b :: rest =>
    Event.subscribed b (svc c).2 ::
      Event.invoked b.handler (invokeArg b.flavor (svc c).2) ::
        buildTrace svc (c + 1) rest

/-- The receiver's attribute dictionary after the keep-reference `setattr`
of each binding in turn. -/
def buildAttrs : Attrs → List Binding → Attrs
  | a, [] => a
  | a, b :: rest => buildAttrs (setattr a (b.kind ++ ctypeSuffix) b.handler) rest

/-- The handler invocations of a trace, in order. -/
def invokedEvents : List Event → List (PyVal × HandlerArg)
  | [] => []
  | Event.invoked h a :: rest => (h, a) :: invokedEvents rest
  | Event.subscribed _ _ :: rest => invokedEvents rest

/-! ### Lemmas about the registration loop -/

theorem boundBindings_setattr (attrs : Attrs) (key : String) (val : PyVal)
    (ms : List (String × String × Flavor)) (h : ∀ e ∈ ms, e.2.1 ≠ key) :
    boundBindings (setattr attrs key val) ms = boundBindings attrs ms := by
  induction ms with
  | nil => rfl
  | cons hd tl ih =>
    obtain ⟨k, v, n⟩ := hd
    have hv : v ≠ key := h (k, v, n) (List.mem_cons_self _ _)
    have htl : ∀ e ∈ tl, e.2.1 ≠ key := fun e he => h e (List.mem_cons_of_mem _ he)
    simp only [boundBindings, getattr_setattr_ne attrs key v val hv, ih htl]

theorem buildIters_eq_map_subs (svc : Svc) (c : Nat) (bs : List Binding) :
    buildIters svc c bs = (buildSubs svc c bs).map (fun p => (p.1.name, p.2)) := by
  induction bs generalizing c with
  | nil => rfl
  | cons b rest ih => simp [buildIters, buildSubs, ih]

theorem buildSubs_map_fst (svc : Svc) (c : Nat) (bs : List Binding) :
    (buildSubs svc c bs).map Prod.fst = bs := by
  induction bs generalizing c with
  | nil => rfl
  | cons b rest ih => simp [buildSubs, ih]

theorem invokedEvents_buildTrace (svc : Svc) (c : Nat) (bs : List Binding) :
    invokedEvents (buildTrace svc c bs) =
      (buildSubs svc c bs).map (fun p => (p.1.handler, invokeArg p.1.flavor p.2)) := by
  induction bs generalizing c with
  | nil => rfl
  | cons b rest ih => simp [buildTrace, buildSubs, invokedEvents, ih]

theorem boundBindings_names (attrs : Attrs) (ms : List (String × String × Flavor)) :
    (boundBindings attrs ms).map Binding.name =
      (ms.map (fun e => e.2.1)).filter
        (fun v => ((getattr attrs v).getD PyVal.noneVal).truthy) := by
  induction ms with
  | nil => rfl
  | cons hd tl ih =>
    obtain ⟨k, v, n⟩ := hd
    by_cases htr : ((getattr attrs v).getD PyVal.noneVal).truthy
    · simp [boundBindings, htr, List.filter_cons, ih]
    · simp [boundBindings, htr, List.filter_cons, ih]

theorem boundBindings_pairs_sublist (attrs : Attrs) (ms : List (String × String × Flavor)) :
    ((boundBindings attrs ms).map (fun b => (b.kind, b.flavor))).Sublist
      (ms.map (fun e => (e.1, e.2.2))) := by
  induction ms with
  | nil => simp [boundBindings]
  | cons hd tl ih =>
    obtain ⟨k, v, n⟩ := hd
    by_cases htr : ((getattr attrs v).getD PyVal.noneVal).truthy
    · simpa [boundBindings, htr] using ih.cons₂ (k, n)
    · simpa [boundBindings, htr] using ih.cons (k, n)

theorem filter_congr_mem {α : Type} (l : List α) (p q : α → Bool)
    (h : ∀ x ∈ l, p x = q x) : l.filter p = l.filter q := by
  induction l with
  | nil => rfl
  | cons a t ih =>
    have ha := h a (List.mem_cons_self a t)
    simp [List.filter_cons, ha, ih (fun x hx => h x (List.mem_cons_of_mem a hx))]

theorem PyVal.truthy_of_isCallable {a : PyVal} (h : a.isCallable = true) :
    a.truthy = true := by
  cases a with
  | callable i => rfl
  | intVal n => simp [PyVal.isCallable] at h
  | strVal s => simp [PyVal.isCallable] at h
  | noneVal => simp [PyVal.isCallable] at h

theorem exposedHandlers_eq_bound_names (attrs : Attrs)
    (hcall : ∀ v ∈ recognizedNames, Option.all PyVal.isCallable (getattr attrs v) = true) :
    (boundBindings attrs notificationMap).map Binding.name = exposedHandlers attrs := by
  rw [boundBindings_names]
  apply filter_congr_mem
  intro x hx
  have hc := hcall x hx
  cases hga : getattr attrs x with
  | none => simp [hga, PyVal.truthy, PyVal.isCallable]
  | some a =>
    rw [hga] at hc
    have hc' : a.isCallable = true := by simpa [Option.all] using hc
    simp [hga, PyVal.truthy_of_isCallable hc', hc']


/-- The success path of the registration loop: when every issued subscription
request gets status 0, the loop registers exactly the truthy-bound table
entries, in table order, each handler invoked once on its own fresh cursor,
and returns the iterator dictionary keyed by handler name. -/
theorem regLoop_ok (svc : Svc) (ms : List (String × String × Flavor)) :
    ∀ st : RegState,
      (∀ e ∈ ms, ∀ e' ∈ ms, e.2.1 ≠ e'.1 ++ ctypeSuffix) →
      (∀ i, i < (boundBindings st.attrs ms).length → (svc (st.calls + i)).1 = 0) →
      (regLoop svc ms st).2 =
          Except.ok (st.iterators ++ buildIters svc st.calls (boundBindings st.attrs ms)) ∧
      (regLoop svc ms st).1.attrs = buildAttrs st.attrs (boundBindings st.attrs ms) ∧
      (regLoop svc ms st).1.subs =
          st.subs ++ buildSubs svc st.calls (boundBindings st.attrs ms) ∧
      (regLoop svc ms st).1.iterators =
          st.iterators ++ buildIters svc st.calls (boundBindings st.attrs ms) ∧
      (regLoop svc ms st).1.trace =
          st.trace ++ buildTrace svc st.calls (boundBindings st.attrs ms) ∧
      (regLoop svc ms st).1.calls = st.calls + (boundBindings st.attrs ms).length := by
  induction ms with
  | nil =>
    intro st _ _
    refine ⟨?_, ?_, ?_, ?_, ?_, ?_⟩ <;>
      simp [regLoop, boundBindings, buildAttrs, buildSubs, buildIters, buildTrace]
  | cons hd tl ih =>
    intro st hsep hok
    obtain ⟨k, v, n⟩ := hd
    have hsep' : ∀ e ∈ tl, ∀ e' ∈ tl, e.2.1 ≠ e'.1 ++ ctypeSuffix :=
      fun e he e' he' => hsep e (List.mem_cons_of_mem _ he) e' (List.mem_cons_of_mem _ he')
    by_cases htr : ((getattr st.attrs v).getD PyVal.noneVal).truthy
    · have hkey : ∀ e ∈ tl, e.2.1 ≠ k ++ ctypeSuffix :=
        fun e he => hsep e (List.mem_cons_of_mem _ he) (k, v, n) (List.mem_cons_self _ _)
      have hbb : boundBindings st.attrs ((k, v, n) :: tl) =
          ⟨k, v, n, (getattr st.attrs v).getD PyVal.noneVal⟩ :: boundBindings st.attrs tl := by
        simp only [boundBindings, if_pos htr]
      have h0 : (svc st.calls).1 = 0 := by
        have := hok 0 (by rw [hbb]; simp)
        simpa using this
      have hbbtl : boundBindings
            (setattr st.attrs (k ++ ctypeSuffix) ((getattr st.attrs v).getD PyVal.noneVal)) tl =
          boundBindings st.attrs tl :=
        boundBindings_setattr st.attrs _ _ tl hkey
      set st2 : RegState :=
        { attrs := setattr st.attrs (k ++ ctypeSuffix) ((getattr st.attrs v).getD PyVal.noneVal),
          subs := st.subs ++
            [(⟨k, v, n, (getattr st.attrs v).getD PyVal.noneVal⟩, (svc st.calls).2)],
          iterators := st.iterators ++ [(v, (svc st.calls).2)],
          trace := st.trace ++
            [Event.subscribed ⟨k, v, n, (getattr st.attrs v).getD PyVal.noneVal⟩
               (svc st.calls).2,
             Event.invoked ((getattr st.attrs v).getD PyVal.noneVal)
               (invokeArg n (svc st.calls).2)],
          calls := st.calls + 1 } with hst2
      have hstep : regLoop svc ((k, v, n) :: tl) st = regLoop svc tl st2 := by
        rw [hst2]
        simp only [regLoop, if_pos htr, if_pos h0]
      have p1 : st2.attrs =
          setattr st.attrs (k ++ ctypeSuffix) ((getattr st.attrs v).getD PyVal.noneVal) := by
        rw [hst2]
      have p2 : st2.subs = st.subs ++
          [(⟨k, v, n, (getattr st.attrs v).getD PyVal.noneVal⟩, (svc st.calls).2)] := by
        rw [hst2]
      have p3 : st2.iterators = st.iterators ++ [(v, (svc st.calls).2)] := by
        rw [hst2]
      have p4 : st2.trace = st.trace ++
          [Event.subscribed ⟨k, v, n, (getattr st.attrs v).getD PyVal.noneVal⟩
             (svc st.calls).2,
           Event.invoked ((getattr st.attrs v).getD PyVal.noneVal)
             (invokeArg n (svc st.calls).2)] := by
        rw [hst2]
      have p5 : st2.calls = st.calls + 1 := by rw [hst2]
      have hbbtl2 : boundBindings st2.attrs tl = boundBindings st.attrs tl := by
        rw [p1]; exact hbbtl
      have hok2 : ∀ i, i < (boundBindings st2.attrs tl).length →
          (svc (st2.calls + i)).1 = 0 := by
        intro i hi
        rw [hbbtl2] at hi
        rw [p5, show st.calls + 1 + i = st.calls + (i + 1) from by omega]
        exact hok (i + 1) (by rw [hbb]; simpa using Nat.succ_lt_succ hi)
      obtain ⟨e0, e1, e2, e3, e4, e5⟩ := ih st2 hsep' hok2
      rw [hstep, e0, e1, e2, e3, e4, e5, p1, p2, p3, p4, p5, hbbtl, hbb]
      refine ⟨?_, ?_, ?_, ?_, ?_, ?_⟩
      · simp [buildIters, List.append_assoc]
      · simp [buildAttrs]
      · simp [buildSubs, List.append_assoc]
      · simp [buildIters, List.append_assoc]
      · simp [buildTrace, List.append_assoc]
      · simp only [List.length_cons]
        omega
    · have hbb : boundBindings st.attrs ((k, v, n) :: tl) = boundBindings st.attrs tl := by
        simp only [boundBindings, if_neg htr]
      have hstep : regLoop svc ((k, v, n) :: tl) st = regLoop svc tl st := by
        simp only [regLoop, if_neg htr]
      rw [hstep, hbb]
      exact ih st hsep' (fun i hi => hok i (by rw [hbb]; exact hi))

/-- The failure path of the registration loop: when the first j bound entries
subscribe with status 0 and the (j+1)-th request returns a non-zero status,
the loop aborts — with the NameError raised by the undefined name
`IOException`, which carries no status code; the j subscriptions already
issued (and their handler invocations) stay in place, and exactly j+1 OS
requests were made. -/
theorem regLoop_err (svc : Svc) (ms : List (String × String × Flavor)) :
    ∀ (st : RegState) (j : Nat),
      (∀ e ∈ ms, ∀ e' ∈ ms, e.2.1 ≠ e'.1 ++ ctypeSuffix) →
      j < (boundBindings st.attrs ms).length →
      (∀ i, i < j → (svc (st.calls + i)).1 = 0) →
      (svc (st.calls + j)).1 ≠ 0 →
      (regLoop svc ms st).2 = Except.error (PyError.nameError ("IOException")) ∧
      (regLoop svc ms st).1.subs =
        st.subs ++ buildSubs svc st.calls ((boundBindings st.attrs ms).take j) ∧
      (regLoop svc ms st).1.trace =
        st.trace ++ buildTrace svc st.calls ((boundBindings st.attrs ms).take j) ∧
      (regLoop svc ms st).1.calls = st.calls + j + 1 := by
  induction ms with
  | nil =>
    intro st j _ hj _ _
    simp [boundBindings] at hj
  | cons hd tl ih =>
    intro st j hsep hj hok hr
    obtain ⟨k, v, n⟩ := hd
    have hsep' : ∀ e ∈ tl, ∀ e' ∈ tl, e.2.1 ≠ e'.1 ++ ctypeSuffix :=
      fun e he e' he' => hsep e (List.mem_cons_of_mem _ he) e' (List.mem_cons_of_mem _ he')
    by_cases htr : ((getattr st.attrs v).getD PyVal.noneVal).truthy
    · have hkey : ∀ e ∈ tl, e.2.1 ≠ k ++ ctypeSuffix :=
        fun e he => hsep e (List.mem_cons_of_mem _ he) (k, v, n) (List.mem_cons_self _ _)
      have hbb : boundBindings st.attrs ((k, v, n) :: tl) =
          ⟨k, v, n, (getattr st.attrs v).getD PyVal.noneVal⟩ :: boundBindings st.attrs tl := by
        simp only [boundBindings, if_pos htr]
      have hbbtl : boundBindings
            (setattr st.attrs (k ++ ctypeSuffix) ((getattr st.attrs v).getD PyVal.noneVal)) tl =
          boundBindings st.attrs tl :=
        boundBindings_setattr st.attrs _ _ tl hkey
      cases j with
      | zero =>
        have hfail : ¬((svc st.calls).1 = 0) := by simpa using hr
        have hstep : regLoop svc ((k, v, n) :: tl) st =
            ({ st with
                attrs := setattr st.attrs (k ++ ctypeSuffix)
                  ((getattr st.attrs v).getD PyVal.noneVal),
                calls := st.calls + 1 },
             Except.error (PyError.nameError ("IOException"))) := by
          simp only [regLoop, if_pos htr, if_neg hfail]
        rw [hstep]
        refine ⟨by simp, by simp [buildSubs], by simp [buildTrace], by simp⟩
      | succ j' =>
        have h0 : (svc st.calls).1 = 0 := by simpa using hok 0 (Nat.succ_pos j')
        set st2 : RegState :=
          { attrs := setattr st.attrs (k ++ ctypeSuffix)
              ((getattr st.attrs v).getD PyVal.noneVal),
            subs := st.subs ++
              [(⟨k, v, n, (getattr st.attrs v).getD PyVal.noneVal⟩, (svc st.calls).2)],
            iterators := st.iterators ++ [(v, (svc st.calls).2)],
            trace := st.trace ++
              [Event.subscribed ⟨k, v, n, (getattr st.attrs v).getD PyVal.noneVal⟩
                 (svc st.calls).2,
               Event.invoked ((getattr st.attrs v).getD PyVal.noneVal)
                 (invokeArg n (svc st.calls).2)],
            calls := st.calls + 1 } with hst2
        have hstep : regLoop svc ((k, v, n) :: tl) st = regLoop svc tl st2 := by
          rw [hst2]
          simp only [regLoop, if_pos htr, if_pos h0]
        have p1 : st2.attrs =
            setattr st.attrs (k ++ ctypeSuffix) ((getattr st.attrs v).getD PyVal.noneVal) := by
          rw [hst2]
        have p2 : st2.subs = st.subs ++
            [(⟨k, v, n, (getattr st.attrs v).getD PyVal.noneVal⟩, (svc st.calls).2)] := by
          rw [hst2]
        have p4 : st2.trace = st.trace ++
            [Event.subscribed ⟨k, v, n, (getattr st.attrs v).getD PyVal.noneVal⟩
               (svc st.calls).2,
             Event.invoked ((getattr st.attrs v).getD PyVal.noneVal)
               (invokeArg n (svc st.calls).2)] := by
          rw [hst2]
        have p5 : st2.calls = st.calls + 1 := by rw [hst2]
        have hbbtl2 : boundBindings st2.attrs tl = boundBindings st.attrs tl := by
          rw [p1]; exact hbbtl
        have hj2 : j' < (boundBindings st2.attrs tl).length := by
          rw [hbbtl2]
          rw [hbb] at hj
          simpa using Nat.lt_of_succ_lt_succ hj
        have hok2 : ∀ i, i < j' → (svc (st2.calls + i)).1 = 0 := by
          intro i hi
          rw [p5, show st.calls + 1 + i = st.calls + (i + 1) from by omega]
          exact hok (i + 1) (Nat.succ_lt_succ hi)
        have hr2 : (svc (st2.calls + j')).1 ≠ 0 := by
          rw [p5, show st.calls + 1 + j' = st.calls + (j' + 1) from by omega]
          exact hr
        obtain ⟨e0, e1, e2, e3⟩ := ih st2 j' hsep' hj2 hok2 hr2
        rw [hstep, e0, e1, e2, e3, p2, p4, p5, hbbtl2, hbb]
        refine ⟨?_, ?_, ?_, ?_⟩
        · rfl
        · simp [List.take_succ_cons, buildSubs, List.append_assoc]
        · simp [List.take_succ_cons, buildTrace, List.append_assoc]
        · omega
    · have hbb : boundBindings st.attrs ((k, v, n) :: tl) = boundBindings st.attrs tl := by
        simp only [boundBindings, if_neg htr]
      have hstep : regLoop svc ((k, v, n) :: tl) st = regLoop svc tl st := by
        simp only [regLoop, if_neg htr]
      rw [hstep, hbb]
      exact ih st j hsep' (by rw [hbb] at hj; exact hj) hok hr

/-- No handler attribute name of the source's table collides with any of the
keep-reference attribute names the loop writes. -/
theorem notificationMap_sep :
    ∀ e ∈ notificationMap, ∀ e' ∈ notificationMap, e.2.1 ≠ e'.1 ++ ctypeSuffix := by
  decide

/-- The (notification type, callback flavor) pairs of the source's table are
pairwise distinct. -/
theorem notificationMap_pairs_nodup :
    (notificationMap.map (fun e => (e.1, e.2.2))).Nodup := by
  decide

theorem buildIters_map_fst (svc : Svc) (c : Nat) (bs : List Binding) :
    (buildIters svc c bs).map Prod.fst = bs.map Binding.name := by
  induction bs generalizing c with
  | nil => rfl
  | cons b rest ih => simp [buildIters, ih]

theorem buildSubs_map_name (svc : Svc) (c : Nat) (bs : List Binding) :
    (buildSubs svc c bs).map (fun p => p.1.name) = bs.map Binding.name := by
  induction bs generalizing c with
  | nil => rfl
  | cons b rest ih => simp [buildSubs, ih]

theorem buildSubs_map_kindflavor (svc : Svc) (c : Nat) (bs : List Binding) :
    (buildSubs svc c bs).map (fun p => (p.1.kind, p.1.flavor)) =
      bs.map (fun b => (b.kind, b.flavor)) := by
  induction bs generalizing c with
  | nil => rfl
  | cons b rest ih => simp [buildSubs, ih]

theorem filterMap_id_map {α β : Type} (l : List α) (f : α → Option β) :
    (l.map f).filterMap id = l.filterMap f := by
  induction l with
  | nil => rfl
  | cons a t ih => cases h : f a <;> simp [List.filterMap_cons, h, ih]

/-- `addMatchingNotifications` on the success path, in closed form. -/
theorem addMatching_ok (svc : Svc) (receiver : Attrs)
    (hok : ∀ i, i < (boundBindings receiver notificationMap).length → (svc i).1 = 0) :
    (addMatchingNotifications svc receiver).2 =
        Except.ok (buildIters svc 0 (boundBindings receiver notificationMap)) ∧
    (addMatchingNotifications svc receiver).1.attrs =
        buildAttrs receiver (boundBindings receiver notificationMap) ∧
    (addMatchingNotifications svc receiver).1.subs =
        buildSubs svc 0 (boundBindings receiver notificationMap) ∧
    (addMatchingNotifications svc receiver).1.iterators =
        buildIters svc 0 (boundBindings receiver notificationMap) ∧
    (addMatchingNotifications svc receiver).1.trace =
        buildTrace svc 0 (boundBindings receiver notificationMap) ∧
    (addMatchingNotifications svc receiver).1.calls =
        (boundBindings receiver notificationMap).length := by
  have h := regLoop_ok svc notificationMap
    { attrs := receiver, subs := [], iterators := [], trace := [], calls := 0 }
    notificationMap_sep
    (by
      intro i hi
      have hi' : i < (boundBindings receiver notificationMap).length := by simpa using hi
      simpa using hok i hi')
  simpa [addMatchingNotifications] using h

/-- `addMatchingNotifications` on the failure path, in closed form. -/
theorem addMatching_err (svc : Svc) (receiver : Attrs) (j : Nat)
    (hj : j < (boundBindings receiver notificationMap).length)
    (hok : ∀ i, i < j → (svc i).1 = 0)
    (hr : (svc j).1 ≠ 0) :
    (addMatchingNotifications svc receiver).2 =
      Except.error (PyError.nameError ("IOException")) ∧
    (addMatchingNotifications svc receiver).1.subs =
      buildSubs svc 0 ((boundBindings receiver notificationMap).take j) ∧
    (addMatchingNotifications svc receiver).1.trace =
      buildTrace svc 0 ((boundBindings receiver notificationMap).take j) ∧
    (addMatchingNotifications svc receiver).1.calls = j + 1 := by
  have h := regLoop_err svc notificationMap
    { attrs := receiver, subs := [], iterators := [], trace := [], calls := 0 } j
    notificationMap_sep (by simpa using hj)
    (by intro i hi; simpa using hok i hi)
    (by simpa using hr)
  simpa [addMatchingNotifications] using h

/-! ### Concrete doubles for the external collaborators and receivers -/

/-- A registry-service double on which every subscription request succeeds,
the i-th request yielding the iteration-cursor handle 10 + i. -/
def svcOk : Svc := fun i => (0, 10 + i)

/-- A registry-service double whose first two requests succeed (cursors
20, 21) and whose third request fails with status 5. -/
def svcFailThird : Svc := fun i => if i < 2 then ((0 : Int), 20 + i) else (5, 0)

/-- The spec's scenario receiver: exposes the two path handlers
`on_path_match` and `on_path_terminate`. -/
def receiverPaths : Attrs :=
  [("on_path_match", PyVal.callable 1), ("on_path_terminate", PyVal.callable 2)]

/-- A receiver exposing both the raw and the path handler of the publish
event kind. -/
def receiverBoth : Attrs :=
  [("on_publish", PyVal.callable 1), ("on_path_publish", PyVal.callable 2)]

/-- A receiver whose `on_publish` attribute is a truthy non-callable value. -/
def receiverNonCallable : Attrs := [("on_publish", PyVal.intVal 7)]

/-- A receiver exposing four handlers (three raw, one path). -/
def receiverFour : Attrs :=
  [("on_publish", PyVal.callable 1), ("on_match", PyVal.callable 2),
   ("on_terminate", PyVal.callable 3), ("on_path_match", PyVal.callable 4)]

/-- A receiver exposing one raw and one path handler of distinct event kinds. -/
def receiverMixed : Attrs :=
  [("on_match", PyVal.callable 3), ("on_path_terminate", PyVal.callable 4)]

/-- The property-lookup double of the spec scenario: device handle 1 carries
the callout-device path, device handle 2 does not. -/
def searchEx : SearchFn :=
  fun entry _ _ _ _ => if entry = 1 then some ("/dev/cu.usbserial-A") else none

/-! ### The claims -/

/-- Claim C1: for every matching filter and every receiver exposing exactly
the handler set H (each recognized-name attribute, when present, is a
callable handler), a registration on which the registry service grants every
request issues exactly one OS subscription request per handler in H and
returns a mapping whose key list is exactly H, each key mapped to the
iteration cursor of its own subscription; in particular, an empty H yields an
empty mapping and zero OS subscription calls. -/
theorem C1_registration_counts (svc : Svc) (receiver : Attrs)
    (hcall : ∀ v ∈ recognizedNames, Option.all PyVal.isCallable (getattr receiver v) = true)
    (hok : ∀ i, i < (exposedHandlers receiver).length → (svc i).1 = 0) :
    ∃ iters : List (String × Nat),
      (addMatchingNotifications svc receiver).2 = Except.ok iters ∧
      iters.map Prod.fst = exposedHandlers receiver ∧
      (addMatchingNotifications svc receiver).1.calls = (exposedHandlers receiver).length ∧
      iters = ((addMatchingNotifications svc receiver).1.subs).map
        (fun p => (p.1.name, p.2)) := by
  have hnames := exposedHandlers_eq_bound_names receiver hcall
  have hlen : (boundBindings receiver notificationMap).length =
      (exposedHandlers receiver).length := by
    rw [← hnames, List.length_map]
  obtain ⟨e0, _, e2, _, _, e5⟩ := addMatching_ok svc receiver
    (fun i hi => hok i (by rw [← hlen]; exact hi))
  refine ⟨buildIters svc 0 (boundBindings receiver notificationMap), e0, ?_, ?_, ?_⟩
  · rw [buildIters_map_fst, hnames]
  · rw [e5, hlen]
  · rw [e2, buildIters_eq_map_subs]

theorem C1_registration_counts_witness :
    (∀ v ∈ recognizedNames,
        Option.all PyVal.isCallable (getattr receiverPaths v) = true) ∧
    (∀ i, i < (exposedHandlers receiverPaths).length → (svcOk i).1 = 0) ∧
    ∃ iters : List (String × Nat),
      (addMatchingNotifications svcOk receiverPaths).2 = Except.ok iters ∧
      iters.map Prod.fst = exposedHandlers receiverPaths ∧
      (addMatchingNotifications svcOk receiverPaths).1.calls =
        (exposedHandlers receiverPaths).length ∧
      iters = ((addMatchingNotifications svcOk receiverPaths).1.subs).map
        (fun p => (p.1.name, p.2)) :=
  ⟨by decide, by decide, C1_registration_counts svcOk receiverPaths (by decide) (by decide)⟩

/-- Claim C2, counterexample: on a cursor enumerating device handles 1 and 2,
where handle 1 resolves to a path and handle 2 does not, the path generator
built by `_path_callback` yields TWO items — the resolved path and a nil
value — rather than skipping the failed resolution, so it differs from the
skip-silently PathIterator the spec describes. -/
theorem C2_counterexample :
    pathGenerator searchEx [1, 2] = [some ("/dev/cu.usbserial-A"), none] ∧
    pathIteratorSpec searchEx [1, 2] = [("/dev/cu.usbserial-A")] ∧
    pathGenerator searchEx [1, 2] ≠
      (pathIteratorSpec searchEx [1, 2]).map some := by
  decide

/-- Claim C2, amended: the path generator yields one item per handle the
underlying iterator produces, in the same relative order — the resolved path
for handles that resolve and a nil value for handles that do not (no
skipping) — and is exhausted exactly when the underlying iterator is; the
subsequence of successful items is exactly the resolved paths P1..Pk in
order. -/
theorem C2_amended_map_no_skip (search : SearchFn) (cursor : List Nat)
    (hz : ∀ x ∈ cursor, x ≠ 0) :
    pathGenerator search cursor =
      cursor.map (fun service =>
        IORegistryEntrySearchCFProperty search service kIOServicePlane
          kIOCalloutDeviceKey kCFAllocatorDefault kIORegistryIterateRecursively) ∧
    (pathGenerator search cursor).length = cursor.length ∧
    (pathGenerator search cursor).filterMap id = pathIteratorSpec search cursor := by
  have ht := IOIterator.toList_of_no_zero cursor hz
  refine ⟨?_, ?_, ?_⟩
  · simp only [pathGenerator, ht]
  · simp only [pathGenerator, ht, List.length_map]
  · simp only [pathGenerator, pathIteratorSpec, filterMap_id_map]

theorem C2_amended_map_no_skip_witness :
    (∀ x ∈ ([1, 2] : List Nat), x ≠ 0) ∧
    (pathGenerator searchEx [1, 2] =
      ([1, 2] : List Nat).map (fun service =>
        IORegistryEntrySearchCFProperty searchEx service kIOServicePlane
          kIOCalloutDeviceKey kCFAllocatorDefault kIORegistryIterateRecursively) ∧
    (pathGenerator searchEx [1, 2]).length = ([1, 2] : List Nat).length ∧
    (pathGenerator searchEx [1, 2]).filterMap id = pathIteratorSpec searchEx [1, 2]) :=
  ⟨by decide, C2_amended_map_no_skip searchEx [1, 2] (by decide)⟩

/-- Claim C3, evaluated at the failing input: with four handlers bound and
the registry service granting the first two requests but failing the third
with status 5, the registration call does not complete successfully — but
the error the caller receives is the NameError raised by the undefined name
`IOException`, carrying only that name and NOT the status code 5; the two
subscriptions already issued (and their synchronous handler invocations)
remain in place with no rollback, and exactly three OS requests were made. -/
theorem C3_status_code_lost :
    (addMatchingNotifications svcFailThird receiverFour).2 =
      Except.error (PyError.nameError ("IOException")) ∧
    (svcFailThird 2).1 = 5 ∧
    (addMatchingNotifications svcFailThird receiverFour).1.subs =
      buildSubs svcFailThird 0 ((boundBindings receiverFour notificationMap).take 2) ∧
    ((addMatchingNotifications svcFailThird receiverFour).1.subs).length = 2 ∧
    (addMatchingNotifications svcFailThird receiverFour).1.calls = 3 := by
  decide

/-- Claim C4, counterexample: a receiver exposing both `on_publish` and
`on_path_publish` gets TWO subscriptions for the publish event kind, and the
raw-form handler also takes effect (it is invoked with a raw iterator), so
neither "at most one subscription per (port, EventKind)" nor "only the
path-form binding takes effect" holds on the code. -/
theorem C4_counterexample :
    (((addMatchingNotifications svcOk receiverBoth).1.subs).filter
        (fun p => p.1.kind == kIOPublishNotification)).length = 2 ∧
    Event.invoked (PyVal.callable 1) (HandlerArg.rawIter 10) ∈
      (addMatchingNotifications svcOk receiverBoth).1.trace := by
  decide

/-- Claim C4, amended: a receiver may bind up to two handlers per EventKind —
one raw-form and one path-form; when both are exposed the code registers both
as independent subscriptions and both take effect.  What does hold is that at
most one subscription exists per (NotificationPort, EventKind, flavor)
triple: the subscriptions of one successful registration call are pairwise
distinct in (event kind, callback flavor). -/
theorem C4_amended_one_per_kind_flavor (svc : Svc) (receiver : Attrs)
    (hok : ∀ i, i < (boundBindings receiver notificationMap).length → (svc i).1 = 0) :
    ((addMatchingNotifications svc receiver).1.subs).Pairwise
      (fun p q => p.1.kind ≠ q.1.kind ∨ p.1.flavor ≠ q.1.flavor) := by
  obtain ⟨_, _, e2, _, _, _⟩ := addMatching_ok svc receiver hok
  rw [e2]
  have hsub := boundBindings_pairs_sublist receiver notificationMap
  have hnd : ((boundBindings receiver notificationMap).map
      (fun b => (b.kind, b.flavor))).Nodup :=
    List.Sublist.nodup hsub notificationMap_pairs_nodup
  have hnd2 : ((buildSubs svc 0 (boundBindings receiver notificationMap)).map
      (fun p => (p.1.kind, p.1.flavor))).Nodup := by
    rw [buildSubs_map_kindflavor]
    exact hnd
  have hpw := List.pairwise_map.mp hnd2
  refine hpw.imp ?_
  intro a b hne
  by_cases hk : a.1.kind = b.1.kind
  · right
    intro hf
    exact hne (by rw [hk, hf])
  · left
    exact hk

theorem C4_amended_one_per_kind_flavor_witness :
    (∀ i, i < (boundBindings receiverBoth notificationMap).length → (svcOk i).1 = 0) ∧
    ((addMatchingNotifications svcOk receiverBoth).1.subs).Pairwise
      (fun p q => p.1.kind ≠ q.1.kind ∨ p.1.flavor ≠ q.1.flavor) :=
  ⟨by decide, C4_amended_one_per_kind_flavor svcOk receiverBoth (by decide)⟩

/-- Claim C5, counterexample: a receiver whose `on_publish` attribute is the
truthy non-callable value 7 still gets a subscription — the source tests
truthiness (`if not attr`), never callability — refuting "an attribute of a
recognized name that is not callable does not cause a subscription". -/
theorem C5_counterexample :
    PyVal.isCallable (PyVal.intVal 7) = false ∧
    getattr receiverNonCallable ("on_publish") = some (PyVal.intVal 7) ∧
    (addMatchingNotifications svcOk receiverNonCallable).1.calls = 1 ∧
    ((addMatchingNotifications svcOk receiverNonCallable).1.subs).length = 1 ∧
    (addMatchingNotifications svcOk receiverNonCallable).2 =
      Except.ok [(("on_publish"), 10)] := by
  decide

/-- Claim C5, amended: for every receiver and every recognized handler name,
a (successful) registration issues a subscription for that name if and only
if the receiver's attribute of that name is truthy under Python's truth
test; callability is not checked, so truthy non-callables are subscribed and
falsy attributes are skipped. -/
theorem C5_amended_truthiness (svc : Svc) (receiver : Attrs)
    (hok : ∀ i, i < (boundBindings receiver notificationMap).length → (svc i).1 = 0) :
    ((addMatchingNotifications svc receiver).1.subs).map (fun p => p.1.name) =
      recognizedNames.filter
        (fun v => ((getattr receiver v).getD PyVal.noneVal).truthy) ∧
    (addMatchingNotifications svc receiver).1.calls =
      (recognizedNames.filter
        (fun v => ((getattr receiver v).getD PyVal.noneVal).truthy)).length := by
  obtain ⟨_, _, e2, _, _, e5⟩ := addMatching_ok svc receiver hok
  have hnames : (boundBindings receiver notificationMap).map Binding.name =
      recognizedNames.filter
        (fun v => ((getattr receiver v).getD PyVal.noneVal).truthy) :=
    boundBindings_names receiver notificationMap
  constructor
  · rw [e2, buildSubs_map_name, hnames]
  · rw [e5, ← hnames, List.length_map]

theorem C5_amended_truthiness_witness :
    (∀ i, i < (boundBindings receiverNonCallable notificationMap).length →
      (svcOk i).1 = 0) ∧
    (((addMatchingNotifications svcOk receiverNonCallable).1.subs).map
        (fun p => p.1.name) =
      recognizedNames.filter
        (fun v => ((getattr receiverNonCallable v).getD PyVal.noneVal).truthy) ∧
    (addMatchingNotifications svcOk receiverNonCallable).1.calls =
      (recognizedNames.filter
        (fun v => ((getattr receiverNonCallable v).getD PyVal.noneVal).truthy)).length) :=
  ⟨by decide, C5_amended_truthiness svcOk receiverNonCallable (by decide)⟩

/-- Claim C6, evaluated at the failing input: a receiver binding both
`on_publish` (handler 1) and `on_path_publish` (handler 2) ends the
registration call with two active subscriptions but only ONE keep-reference
attribute, `IOServicePublish_ctype`, holding handler 2 — the source keys the
reference by the notification-type name (`k + '_ctype'`), so the path-form
binding overwrote the raw handler's retained reference, contradicting the
claim and the source's own `# keep reference` intent. -/
theorem C6_reference_overwritten :
    ((addMatchingNotifications svcOk receiverBoth).1.subs).length = 2 ∧
    (addMatchingNotifications svcOk receiverBoth).1.attrs =
      [(("on_publish"), PyVal.callable 1), (("on_path_publish"), PyVal.callable 2),
       ((kIOPublishNotification ++ ctypeSuffix), PyVal.callable 2)] ∧
    getattr (addMatchingNotifications svcOk receiverBoth).1.attrs
      (kIOPublishNotification ++ ctypeSuffix) = some (PyVal.callable 2) := by
  decide

/-- Claim C7: over a cursor enumerating N non-null device handles, the first
N `next()` calls of `IOIterator` return exactly those handles in order and
every subsequent call — the (N+1)-th and all later ones — returns the
exhaustion sentinel: exhaustion is a terminal, idempotent state. -/
theorem C7_exhaustion_terminal (cursor : List Nat) (m : Nat)
    (hz : ∀ x ∈ cursor, x ≠ 0) :
    nextCalls (cursor.length + m) cursor =
      cursor.map some ++ List.replicate m none := by
  induction cursor with
  | nil => simpa using nextCalls_nil m
  | cons h t ih =>
    have hh : h ≠ 0 := hz h (List.mem_cons_self h t)
    have ht : ∀ x ∈ t, x ≠ 0 := fun x hx => hz x (List.mem_cons_of_mem h hx)
    rw [show (h :: t).length + m = (t.length + m) + 1 from by simp [Nat.succ_add]]
    simp only [nextCalls, IOIterator.next, IOIteratorNext, if_neg hh]
    simp [ih ht]

theorem C7_exhaustion_terminal_witness :
    (∀ x ∈ ([3, 5] : List Nat), x ≠ 0) ∧
    nextCalls (([3, 5] : List Nat).length + 2) [3, 5] =
      ([3, 5] : List Nat).map some ++ List.replicate 2 none :=
  ⟨by decide, C7_exhaustion_terminal [3, 5] 2 (by decide)⟩

/-- Claim C8: `getRunLoopSource` does not change the port, and two calls on
the same open port return equal wait-sources (the same underlying run-loop
source pointer), so registering both results with the same loop registers
one and the same source. -/
theorem C8_run_loop_source_idempotent (getSource : Nat → Nat)
    (port : IONotificationPort) :
    (getRunLoopSource getSource port).2 = port ∧
    (getRunLoopSource getSource ((getRunLoopSource getSource port).2)).1 =
      (getRunLoopSource getSource port).1 :=
  ⟨rfl, rfl⟩

/-- Claim C9: on a successful registration, the call's trace consists, for
each bound handler in table order, of its OS subscription immediately
followed by one synchronous invocation of the matching demultiplexing
callback on that subscription's initial iteration cursor — so every handler
is called once, before `addMatchingNotifications` returns, with a raw
iterator (raw form) or a path generator (path form) over that cursor. -/
theorem C9_initial_dispatch (svc : Svc) (receiver : Attrs)
    (hok : ∀ i, i < (boundBindings receiver notificationMap).length → (svc i).1 = 0) :
    (addMatchingNotifications svc receiver).1.trace =
      buildTrace svc 0 (boundBindings receiver notificationMap) ∧
    invokedEvents ((addMatchingNotifications svc receiver).1.trace) =
      ((addMatchingNotifications svc receiver).1.subs).map
        (fun p => (p.1.handler, invokeArg p.1.flavor p.2)) := by
  obtain ⟨_, _, e2, _, e4, _⟩ := addMatching_ok svc receiver hok
  refine ⟨e4, ?_⟩
  rw [e4, e2, invokedEvents_buildTrace]

theorem C9_initial_dispatch_witness :
    (∀ i, i < (boundBindings receiverMixed notificationMap).length → (svcOk i).1 = 0) ∧
    ((addMatchingNotifications svcOk receiverMixed).1.trace =
      buildTrace svcOk 0 (boundBindings receiverMixed notificationMap) ∧
    invokedEvents ((addMatchingNotifications svcOk receiverMixed).1.trace) =
      ((addMatchingNotifications svcOk receiverMixed).1.subs).map
        (fun p => (p.1.handler, invokeArg p.1.flavor p.2))) :=
  ⟨by decide, C9_initial_dispatch svcOk receiverMixed (by decide)⟩

/-- Claim C10: the `IORegistryEntrySearchCFProperty` wrapper ignores its
allocator and options arguments — any two choices give identical results,
always equal to the search with the default allocator and the
recursive-iteration option. -/
theorem C10_search_ignores_allocator_options (search : SearchFn) (entry : Nat)
    (plane key : String) (a1 o1 a2 o2 : Nat) :
    IORegistryEntrySearchCFProperty search entry plane key a1 o1 =
      IORegistryEntrySearchCFProperty search entry plane key a2 o2 ∧
    IORegistryEntrySearchCFProperty search entry plane key a1 o1 =
      IORegistryEntrySearchCFProperty search entry plane key
        kCFAllocatorDefault kIORegistryIterateRecursively :=
  ⟨rfl, rfl⟩

end IOKit

